import Mathlib

/-!
A shallow embedding of the Mini-CFO-Copilot core: the intent classifier of
src/agent/planner.py and the metric engine of src/agent/tools.py.

Conventions of the embedding:
* a calendar month is its absolute index `year * 12 + (monthOfYear - 1)`
  (all dates in the tables are first-of-month dates per the data schema);
* the process clock (`pd.Timestamp.now()` / `datetime.now()`) is the current
  month index, passed explicitly as `today`; `runAgentClock` models the
  individual ambient clock reads of the source with a read stream;
* pandas float division by zero does not raise: it yields an IEEE special
  value, modelled by `PVal` (finite rational, +inf, -inf, NaN);
* a pandas `KeyError` on a missing pivot column is modelled by `Except PdErr`;
* decimal rendering of numbers follows the Python format specifiers
  (two decimals, comma grouping) except that ties round half-up instead of
  the binary-float half-even of CPython; no statement below depends on ties.
-/

namespace CFO

/-- Absolute month index: `year * 12 + (monthOfYear - 1)`. -/
abbrev MonthIdx := Nat

/-! ## Character/list primitives used to embed the regexes of planner.py -/

def kwL (s : String) : List Char := s.toList

def lowerL (l : List Char) : List Char := l.map Char.toLower

/-- `startsWithL needle hay`: `needle` is an initial run of `hay`. -/
def startsWithL : List Char → List Char → Bool
  | [], _ => true
  | _ :: _, [] => false
  | a :: as, b :: bs => a == b && startsWithL as bs

/-- Python `needle in hay` substring containment. -/
def containsL (w : List Char) : List Char → Bool
  | [] => w.isEmpty
  | c :: t => startsWithL w (c :: t) || containsL w t

/-- Python regex `\s` (ASCII). -/
def isPySpace (c : Char) : Bool :=
  c == ' ' || c == '\t' || c == '\n' || c == '\r' || c == '\x0b' || c == '\x0c'

/-- Python regex `\w` (ASCII). -/
def isWordChar (c : Char) : Bool := c.isAlpha || c.isDigit || c == '_'

def digitsToNat (ds : List Char) : Nat := ds.foldl (fun a c => a * 10 + (c.toNat - 48)) 0

def maxNat? : List Nat → Option Nat
  | [] => none
  | x :: t => some (match maxNat? t with | none => x | some y => max x y)

/-- Code-point lexicographic `<=` on strings, as Python compares `str`. -/
def charsLeB : List Char → List Char → Bool
  | [], _ => true
  | _ :: _, [] => false
  | a :: as, b :: bs => if a == b then charsLeB as bs else decide (a < b)

def strLeB (a b : String) : Bool := charsLeB a.toList b.toList

/-! ## Number and month rendering (Python format specifiers) -/

def twoDigits (n : Nat) : String := if n < 10 then "0" ++ toString n else toString n

def commasAux : Nat → List Char → List Char
  | _, [] => []
  | k, c :: t => if k == 3 then ',' :: c :: commasAux 1 t else c :: commasAux (k + 1) t

/-- Decimal digits of `n` with thousands separators (the `,` format flag). -/
def natCommas (n : Nat) : String :=
  String.mk (commasAux 0 (toString n).toList.reverse).reverse

/-- Python `f"{q:,.2f}"`. -/
def fmtMoney (q : ℚ) : String :=
  let cents := (round (|q| * 100) : ℤ).toNat
  (if q < 0 then "-" else "") ++ natCommas (cents / 100) ++ "." ++ twoDigits (cents % 100)

/-- Python `f"{q:.2f}"`. -/
def fmt2 (q : ℚ) : String :=
  let cents := (round (|q| * 100) : ℤ).toNat
  (if q < 0 then "-" else "") ++ toString (cents / 100) ++ "." ++ twoDigits (cents % 100)

/-- Python `f"{q:.1f}"`. -/
def fmt1 (q : ℚ) : String :=
  let tenths := (round (|q| * 10) : ℤ).toNat
  (if q < 0 then "-" else "") ++ toString (tenths / 10) ++ "." ++ toString (tenths % 10)

def monthNamesFull : List String :=
  ["January", "February", "March", "April", "May", "June", "July", "August",
   "September", "October", "November", "December"]

def monthNamesAbbr : List String :=
  ["Jan", "Feb", "Mar", "Apr", "May", "Jun", "Jul", "Aug", "Sep", "Oct", "Nov", "Dec"]

/-- `strftime('%B %Y')`. -/
def monthFull (m : MonthIdx) : String :=
  (monthNamesFull.getD (m % 12) "") ++ " " ++ toString (m / 12)

/-- `strftime('%b %Y')`. -/
def monthAbbr (m : MonthIdx) : String :=
  (monthNamesAbbr.getD (m % 12) "") ++ " " ++ toString (m / 12)

/-- Month display for an `Int` index (projections never go below month 0 in
any input considered here; negative indices are clamped). -/
def monthFullZ (z : ℤ) : String := monthFull z.toNat

/-- Python `int()` on a float/rational: truncation toward zero. -/
def pyTrunc (q : ℚ) : ℤ := if 0 ≤ q then ⌊q⌋ else -⌊-q⌋

/-! ## Pandas float values: division by zero yields inf, -inf or NaN, not an error -/

inductive PVal where
  | num (q : ℚ)
  | posInf
  | negInf
  | nan
  deriving DecidableEq

/-- Pandas/numpy `(a / b) * 100` on float columns: finite when `b ≠ 0`,
otherwise the IEEE special value (no exception raised). -/
def pdiv100 (a b : ℚ) : PVal :=
  if b = 0 then (if 0 < a then .posInf else if a < 0 then .negInf else .nan)
  else .num (a / b * 100)

/-- `((Revenue - COGS) / Revenue) * 100`, the float expression shared by
tools.py lines 73 (gross-margin trend) and 291 (gross-margin ranking). -/
def gmPercent (r c : ℚ) : PVal := pdiv100 (r - c) r

def PVal.isNanB : PVal → Bool
  | .nan => true
  | _ => false

/-- Order on non-NaN pandas floats (NaN rows are placed last separately,
as `sort_values` does). -/
def pvalLeB : PVal → PVal → Bool
  | .nan, _ => true
  | _, .nan => true
  | .negInf, _ => true
  | _, .negInf => false
  | .num a, .num b => decide (a ≤ b)
  | .num _, .posInf => true
  | .posInf, .posInf => true
  | .posInf, .num _ => false

/-- `f"{v:.2f}"` on a pandas float (CPython prints `inf`, `-inf`, `nan`). -/
def fmtPVal2 : PVal → String
  | .num q => fmt2 q
  | .posInf => "inf"
  | .negInf => "-inf"
  | .nan => "nan"

/-- `f"{v:,.2f}"` on a pandas float. -/
def fmtPValMoney : PVal → String
  | .num q => fmtMoney q
  | .posInf => "inf"
  | .negInf => "-inf"
  | .nan => "nan"

/-! ## Data model (spec section 3 schemas, post-DataLoader) -/

structure Tx where
  month : MonthIdx
  entity : String
  category : String
  currency : String
  amount : ℚ
  deriving DecidableEq

structure FxRate where
  month : MonthIdx
  currency : String
  rate : ℚ
  deriving DecidableEq

structure CashRow where
  month : MonthIdx
  cash : ℚ
  deriving DecidableEq

structure DataFrames where
  actuals : List Tx
  budget : List Tx
  cash : List CashRow
  fx : List FxRate
  deriving DecidableEq

/-- A transaction row after `_convert_to_usd` (merge keeps the rate column). -/
structure TxUSD where
  month : MonthIdx
  entity : String
  category : String
  currency : String
  amount : ℚ
  rate : ℚ
  usd : ℚ
  deriving DecidableEq

/-- Exact (month, currency) match in the fx table (left merge key). -/
def fxLookup (fx : List FxRate) (m : MonthIdx) (c : String) : Option ℚ :=
  (fx.find? (fun r => r.month == m && r.currency == c)).map (·.rate)

/-- tools.py `_convert_to_usd`, one row: left-merge with fx on
(month, currency); a missing rate silently defaults to 1.0 (`fillna(1.0)`);
`amount_usd = amount * rate_to_usd`. -/
def convertRow (fx : List FxRate) (t : Tx) : TxUSD :=
  let r := (fxLookup fx t.month t.currency).getD 1
  ⟨t.month, t.entity, t.category, t.currency, t.amount, r, t.amount * r⟩

def convertUSD (txs : List Tx) (fx : List FxRate) : List TxUSD := txs.map (convertRow fx)

/-! ## Pivot-table helpers

`pivot_table(index='month', columns='account_category', values='amount_usd',
aggfunc='sum').fillna(0)` keeps one column per category value occurring in
the frame; accessing an absent column raises `KeyError`; a present column
has the per-month sums with 0 for months lacking rows of that category. -/

inductive PdErr where
  | keyError (col : String)
  | valueError (msg : String)
  deriving DecidableEq

def catPresent (rows : List TxUSD) (c : String) : Bool := rows.any (fun t => t.category == c)

/-- The (month, category) cell of the fillna(0) pivot. -/
def cell (rows : List TxUSD) (c : String) (m : MonthIdx) : ℚ :=
  ((rows.filter (fun t => t.month == m && t.category == c)).map (·.usd)).sum

/-- `pivot[c]`: `KeyError` when no row of the frame has that category. -/
def requireCol (rows : List TxUSD) (c : String) : Except PdErr (MonthIdx → ℚ) :=
  if catPresent rows c then .ok (cell rows c) else .error (.keyError c)

/-- `pivot.filter(regex='^Opex').sum(axis=1)` at month `m` (prefix "Opex",
no colon — distinct from the "Opex:" filter of the breakdown tool). -/
def opexCell (rows : List TxUSD) (m : MonthIdx) : ℚ :=
  ((rows.filter (fun t => t.month == m && startsWithL (kwL "Opex") t.category.toList)).map (·.usd)).sum

/-- Sum of `amount_usd` over rows of one category (single-month frames). -/
def sumCat (rows : List TxUSD) (c : String) : ℚ :=
  ((rows.filter (fun t => t.category == c)).map (·.usd)).sum

/-- `pivot.filter(regex='^Opex').sum().sum()` over a single-month frame. -/
def opexSum (rows : List TxUSD) : ℚ :=
  ((rows.filter (fun t => startsWithL (kwL "Opex") t.category.toList)).map (·.usd)).sum

/-- Sorted distinct months of a frame (the pivot index / groupby keys). -/
def monthsOf (rows : List TxUSD) : List MonthIdx :=
  List.insertionSort (· ≤ ·) ((rows.map (·.month)).dedup)

/-- `groupby('month')['amount_usd'].sum()` (keys ascending). -/
def monthlyTotals (rows : List TxUSD) : List (MonthIdx × ℚ) :=
  (monthsOf rows).map (fun m => (m, ((rows.filter (fun t => t.month == m)).map (·.usd)).sum))

/-- Pandas `.last('{n}M')` on a month-indexed, ascending frame: keep the rows
whose index is strictly inside the `n` calendar months ending at the last
index value (empty frame returns empty). -/
def lastWindowBy (key : α → MonthIdx) (n : Nat) (l : List α) : List α :=
  match l.getLast? with
  | none => []
  | some lastRow => l.filter (fun x => decide (key lastRow < key x + n))

/-- Rows of the converted actuals for one target month. -/
def rowsForMonth (rows : List TxUSD) (m : MonthIdx) : List TxUSD :=
  rows.filter (fun t => t.month == m)

def monthRows (df : DataFrames) (m : MonthIdx) : List TxUSD :=
  rowsForMonth (convertUSD df.actuals df.fx) m

/-! ## Chart payload (abstract renderable data, spec section 6) -/

structure Chart where
  kind : String
  labels : List String
  values : List PVal
  extra : List (String × ℚ) := []
  title : String
  deriving DecidableEq

/-! ## Metric engine (tools.py) -/

/-- tools.py `get_revenue_vs_budget`. -/
def getRevenueVsBudget (m : MonthIdx) (df : DataFrames) : String × Option Chart :=
  let a := sumCat (rowsForMonth (convertUSD df.actuals df.fx) m) "Revenue"
  let b := sumCat (rowsForMonth (convertUSD df.budget df.fx) m) "Revenue"
  let v := a - b
  ("**Revenue for " ++ monthFull m ++ ":**\n- **Actual:** $" ++ fmtMoney a ++
     " USD\n- **Budget:** $" ++ fmtMoney b ++ " USD\n- **Variance:** $" ++ fmtMoney v ++ " USD",
   some { kind := "bar", labels := ["Actual", "Budget"], values := [.num a, .num b],
          title := "Revenue vs. Budget for " ++ monthFull m })

/-- tools.py `get_gross_margin_trend`.  NOTE: the division at line 73 is NOT
guarded against `Revenue == 0`; a zero-revenue month yields an IEEE special
value in the series (pandas does not raise). -/
def getGrossMarginTrend (n : Nat) (df : DataFrames) (today : MonthIdx) :
    Except PdErr (String × Option Chart) := do
  let rows := (convertUSD df.actuals df.fx).filter (fun t => decide (t.month ≤ today))
  let rev ← requireCol rows "Revenue"
  let cogs ← requireCol rows "COGS"
  let s := (monthsOf rows).map (fun m => (m, gmPercent (rev m) (cogs m)))
  let win := lastWindowBy (·.1) n s
  let body := win.foldl (fun acc p => acc ++ "- **" ++ monthAbbr p.1 ++ ":** " ++ fmtPVal2 p.2 ++ "%\n") ""
  pure ("**Gross Margin Trend (" ++ toString n ++ " Months):**\n" ++ body,
        some { kind := "line", labels := win.map (fun p => monthAbbr p.1), values := win.map (·.2),
               title := "Gross Margin Trend (Last " ++ toString n ++ " Months)" })

/-- Strip the "Opex: " tag from a sub-category label. -/
def stripOpexTag (s : String) : String :=
  if startsWithL (kwL "Opex: ") s.toList then String.mk (s.toList.drop 6) else s

def sortStrings (l : List String) : List String :=
  List.insertionSort (fun a b => strLeB a b = true) l

/-- tools.py `get_opex_breakdown`: group month rows whose category starts
with "Opex:" by stripped sub-category, sort descending by amount. -/
def getOpexBreakdown (m : MonthIdx) (df : DataFrames) : String × Option Chart :=
  let op := (monthRows df m).filter (fun t => startsWithL (kwL "Opex:") t.category.toList)
  let cats := sortStrings ((op.map (fun t => stripOpexTag t.category)).dedup)
  let pairs := cats.map (fun c => (c, ((op.filter (fun t => stripOpexTag t.category == c)).map (·.usd)).sum))
  let sorted := List.insertionSort (fun a b : String × ℚ => decide (b.2 ≤ a.2)) pairs
  let total := (pairs.map (·.2)).sum
  let body := sorted.foldl (fun acc p => acc ++ "- **" ++ p.1 ++ ":** $" ++ fmtMoney p.2 ++ " USD\n") ""
  ("**Opex Breakdown for " ++ monthFull m ++ " (Total: $" ++ fmtMoney total ++ " USD):**\n" ++ body,
   some { kind := "pie", labels := sorted.map (·.1), values := sorted.map (fun p => .num p.2),
          title := "Opex Breakdown for " ++ monthFull m })

/-- The `.last('3M')` trailing window of monthly actuals totals at or before
`today` (tools.py `_calculate_net_burn`, lines 126-128). -/
def burnWindow (df : DataFrames) (today : MonthIdx) : List (MonthIdx × ℚ) :=
  lastWindowBy (·.1) 3 ((monthlyTotals (convertUSD df.actuals df.fx)).filter (fun p => decide (p.1 ≤ today)))

/-- tools.py `_calculate_net_burn`: `none` is the Python `(None, None, None)`
(InsufficientData); otherwise `(avg_monthly_burn, latest_cash, last_cash_month)`. -/
def calculateNetBurn (df : DataFrames) (today : MonthIdx) : Option (ℚ × ℚ × MonthIdx) :=
  match (df.cash.filter (fun r => decide (r.month ≤ today))).getLast? with
  | none => none
  | some lastRow =>
      let win := burnWindow df today
      if win.length < 3 then none
      else some (-(((win.map (·.2)).sum) / (win.length : ℚ)), lastRow.cash, lastRow.month)

def runwaySummary (b c r : ℚ) (endM : ℤ) : String :=
  "**Cash Runway Analysis:**\n- **Current Cash Balance:** $" ++ fmtMoney c ++
    " USD\n- **Avg. Monthly Net Burn (3-mo):** $" ++ fmtMoney b ++
    " USD\n- **Estimated Runway:** " ++ fmt1 r ++ " months (until **" ++ monthFullZ endM ++ "**)"

/-- tools.py `get_cash_runway` (cash-negative branch): `runway = cash/burn`,
`end_date = last_month + int(runway)` (Python `int` truncates toward zero),
projection over `range(int(runway) + 2)` months. -/
def getCashRunway (b c : ℚ) (m : MonthIdx) (df : DataFrames) : String × Option Chart :=
  let r := c / b
  let endM : ℤ := (m : ℤ) + pyTrunc r
  let k := (pyTrunc r + 2).toNat
  let hist := (df.cash.filter (fun row => decide (row.month ≤ m))).map (fun row => (monthAbbr row.month, row.cash))
  (runwaySummary b c r endM,
   some { kind := "line", labels := (List.range k).map (fun i => monthAbbr (m + i)),
          values := (List.range k).map (fun (i : ℕ) => PVal.num (c - b * (i : ℚ))),
          extra := hist, title := "Cash Runway Projection" })

/-- tools.py `get_cash_projection` (cash-positive branch): 13 monthly points
(`range(13)`), increment `avg_monthly_gain` per month. -/
def getCashProjection (g c : ℚ) (m : MonthIdx) (df : DataFrames) : String × Option Chart :=
  let hist := (df.cash.filter (fun row => decide (row.month ≤ m))).map (fun row => (monthAbbr row.month, row.cash))
  ("**Cash Flow Positive Analysis:**\n- **Current Cash Balance:** $" ++ fmtMoney c ++
     " USD\n- **Avg. Monthly Net Gain (3-mo):** $" ++ fmtMoney g ++
     " USD\n- Your business is currently cash flow positive.",
   some { kind := "line", labels := (List.range 13).map (fun i => monthAbbr (m + i)),
          values := (List.range 13).map (fun (i : ℕ) => PVal.num (c + g * (i : ℚ))),
          extra := hist, title := "Cash Growth Projection (12 Months)" })

/-- tools.py `get_ebitda` (uses `.get(col, 0)`, so never raises). -/
def getEbitda (m : MonthIdx) (df : DataFrames) : String × Option Chart :=
  let rows := monthRows df m
  let revenue := sumCat rows "Revenue"
  let cogs := sumCat rows "COGS"
  let opex := opexSum rows
  let e := revenue - cogs - opex
  ("**EBITDA Calculation for " ++ monthFull m ++ ":**\n- **Revenue:** $" ++ fmtMoney revenue ++
     " USD\n- **COGS:** -$" ++ fmtMoney cogs ++ " USD\n- **Opex:** -$" ++ fmtMoney opex ++
     " USD\n-----------------------------\n- **EBITDA:** **$" ++ fmtMoney e ++ " USD**",
   some { kind := "bar", labels := ["Revenue", "COGS", "Opex", "EBITDA"],
          values := [.num revenue, .num (-cogs), .num (-opex), .num e],
          title := "EBITDA Waterfall for " ++ monthFull m })

/-- The `pivot['value']` series of tools.py lines 211-213 / 288-290 for
Revenue / Opex / EBITDA; any other name raises `KeyError('value')` when the
series is used (the chain assigned no 'value' column). -/
def metricSeries (metric : String) (rows : List TxUSD) : Except PdErr (List (MonthIdx × ℚ)) := do
  if metric == "Revenue" then
    let rev ← requireCol rows "Revenue"
    pure ((monthsOf rows).map (fun m => (m, rev m)))
  else if metric == "Opex" then
    pure ((monthsOf rows).map (fun m => (m, opexCell rows m)))
  else if metric == "EBITDA" then
    let rev ← requireCol rows "Revenue"
    let cogs ← requireCol rows "COGS"
    pure ((monthsOf rows).map (fun m => (m, rev m - cogs m - opexCell rows m)))
  else
    throw (.keyError "value")

/-- tools.py `get_metric_trend`. -/
def getMetricTrend (metric : String) (n : Nat) (df : DataFrames) (today : MonthIdx) :
    Except PdErr (String × Option Chart) := do
  let rows := (convertUSD df.actuals df.fx).filter (fun t => decide (t.month ≤ today))
  let s ← metricSeries metric rows
  let win := lastWindowBy (·.1) n s
  let body := win.foldl (fun acc p => acc ++ "- **" ++ monthAbbr p.1 ++ ":** $" ++ fmtMoney p.2 ++ " USD\n") ""
  pure ("**" ++ metric ++ " Trend (" ++ toString n ++ " Months):**\n" ++ body,
        some { kind := "line", labels := win.map (fun p => monthAbbr p.1),
               values := win.map (fun p => .num p.2),
               title := metric ++ " Trend (Last " ++ toString n ++ " Months)" })

/-- tools.py `get_revenue_variance_by_entity`. -/
def getRevenueVarianceByEntity (m : MonthIdx) (df : DataFrames) : String × Option Chart :=
  let aRows := (rowsForMonth (convertUSD df.actuals df.fx) m).filter (fun t => t.category == "Revenue")
  let bRows := (rowsForMonth (convertUSD df.budget df.fx) m).filter (fun t => t.category == "Revenue")
  let ents := sortStrings ((aRows.map (·.entity) ++ bRows.map (·.entity)).dedup)
  let varRows := ents.map (fun e =>
    let a := ((aRows.filter (fun t => t.entity == e)).map (·.usd)).sum
    let b := ((bRows.filter (fun t => t.entity == e)).map (·.usd)).sum
    (e, a, b, a - b))
  let missed := List.insertionSort (fun x y : String × ℚ × ℚ × ℚ => decide (x.2.2.2 ≤ y.2.2.2))
    (varRows.filter (fun x => decide (x.2.2.2 < 0)))
  let body :=
    if missed.isEmpty then "Congratulations! All entities met or exceeded their revenue budget."
    else missed.foldl (fun acc x => acc ++ "- **" ++ x.1 ++ ":** Missed by $" ++ fmtMoney (|x.2.2.2|) ++
      " USD (Actual: $" ++ fmtMoney x.2.1 ++ ", Budget: $" ++ fmtMoney x.2.2.1 ++ ")\n") ""
  let chartRows := List.insertionSort (fun x y : String × ℚ × ℚ × ℚ => decide (x.2.2.2 ≤ y.2.2.2)) varRows
  ("**Entities That Missed Revenue Budget for " ++ monthFull m ++ ":**\n" ++ body,
   some { kind := "barh", labels := chartRows.map (·.1), values := chartRows.map (fun x => .num x.2.2.2),
          title := "Revenue Variance by Entity for " ++ monthFull m })

/-- tools.py `get_cash_balance_trend`. -/
def getCashBalanceTrend (n : Nat) (df : DataFrames) (today : MonthIdx) : String × Option Chart :=
  let rows := List.insertionSort (fun a b : CashRow => a.month ≤ b.month)
    (df.cash.filter (fun r => decide (r.month ≤ today)))
  let win := lastWindowBy (·.month) n rows
  let body := win.foldl (fun acc r => acc ++ "- **" ++ monthAbbr r.month ++ ":** $" ++ fmtMoney r.cash ++ " USD\n") ""
  ("**Cash Balance Trend (" ++ toString n ++ " Months):**\n" ++ body,
   some { kind := "line", labels := win.map (fun r => monthAbbr r.month),
          values := win.map (fun r => .num r.cash),
          title := "Cash Balance Trend (Last " ++ toString n ++ " Months)" })

/-- The ranking value series (tools.py lines 288-291): like the trend series
plus the unguarded Gross Margin percentage. -/
def rankingSeries (metric : String) (rows : List TxUSD) : Except PdErr (List (MonthIdx × PVal)) := do
  if metric == "Gross Margin" then
    let rev ← requireCol rows "Revenue"
    let cogs ← requireCol rows "COGS"
    pure ((monthsOf rows).map (fun m => (m, gmPercent (rev m) (cogs m))))
  else
    let s ← metricSeries metric rows
    pure (s.map (fun p => (p.1, PVal.num p.2)))

/-- `sort_values` on a pandas float series: NaN entries go last whatever the
requested direction. -/
def sortRanked (asc : Bool) (l : List (MonthIdx × PVal)) : List (MonthIdx × PVal) :=
  (List.insertionSort
      (fun a b => (if asc then pvalLeB a.2 b.2 else pvalLeB b.2 a.2) = true)
      (l.filter (fun p => !(PVal.isNanB p.2)))) ++
    l.filter (fun p => PVal.isNanB p.2)

def capFirst (s : String) : String :=
  match s.toList with
  | [] => s
  | c :: t => String.mk (c.toUpper :: t)

/-- tools.py `get_metric_ranking`: chart bars re-sorted ascending whatever
the requested direction. -/
def getMetricRanking (metric rt : String) (n : Nat) (df : DataFrames) (today : MonthIdx) :
    Except PdErr (String × Option Chart) := do
  let rows := (convertUSD df.actuals df.fx).filter (fun t => decide (t.month ≤ today))
  let s ← rankingSeries metric rows
  let ranked := (sortRanked (rt == "bottom") s).take n
  let body := ranked.foldl (fun acc p => acc ++ "- **" ++ monthFull p.1 ++ ":** " ++
    (if metric == "Gross Margin" then fmtPVal2 p.2 ++ "%" else "$" ++ fmtPValMoney p.2 ++ " USD") ++ "\n") ""
  let chartRows := sortRanked true ranked
  pure ("**" ++ capFirst rt ++ " " ++ toString n ++ " Month(s) for " ++ metric ++ ":**\n" ++ body,
        some { kind := "barh", labels := chartRows.map (fun p => monthFull p.1),
               values := chartRows.map (·.2),
               title := capFirst rt ++ " " ++ toString n ++ " " ++ metric ++ " Months" })

/-- tools.py `get_single_metric` value + unit (lines 319-330); the Gross
Margin division IS guarded here: zero revenue yields the value 0. -/
def singleMetricValue (metric : String) (rows : List TxUSD) : ℚ × String :=
  let revenue := sumCat rows "Revenue"
  let cogs := sumCat rows "COGS"
  if metric == "Gross Margin" then
    (if revenue ≠ 0 then (revenue - cogs) / revenue * 100 else 0, "%")
  else if metric == "Revenue" then (revenue, "USD")
  else if metric == "Opex" then (opexSum rows, "USD")
  else (0, "USD")

def noDataMsg (m : MonthIdx) : String := "No data found for " ++ monthFull m ++ "."

/-- tools.py `get_single_metric`: never returns a chart. -/
def getSingleMetric (metric : String) (m : MonthIdx) (df : DataFrames) : String × Option Chart :=
  let rows := monthRows df m
  if rows.isEmpty then (noDataMsg m, none)
  else
    let vu := singleMetricValue metric rows
    ("**" ++ metric ++ " for " ++ monthFull m ++ ":** " ++ fmtMoney vu.1 ++ " " ++ vu.2, none)

/-- tools.py `get_multi_month_metric` per-month value (lines 346-354); a
zero-revenue month yields `none` for Gross Margin and is skipped. -/
def multiValue (metric : String) (rows : List TxUSD) : Option ℚ :=
  let revenue := sumCat rows "Revenue"
  let cogs := sumCat rows "COGS"
  if metric == "Gross Margin" then
    (if revenue ≠ 0 then some ((revenue - cogs) / revenue * 100) else none)
  else if metric == "Revenue" then some revenue
  else if metric == "Opex" then some (opexSum rows)
  else none

/-- The results dict of `get_multi_month_metric`, keyed (and later sorted)
by the `'%b %Y'` display label, skipping months with no rows or no value. -/
def multiResults (metric : String) (ms : List MonthIdx) (df : DataFrames) : List (String × ℚ) :=
  ms.filterMap (fun m =>
    let rows := monthRows df m
    if rows.isEmpty then none
    else (multiValue metric rows).map (fun v => (monthAbbr m, v)))

/-- tools.py `get_multi_month_metric`. -/
def getMultiMonthMetric (metric : String) (ms : List MonthIdx) (df : DataFrames) : String × Option Chart :=
  let results := multiResults metric ms df
  if results.isEmpty then ("No data found for the specified months.", none)
  else
    let sorted := List.insertionSort (fun a b : String × ℚ => strLeB a.1 b.1 = true) results
    let disp := if metric == "Gross Margin" then "Gross Margin %" else metric
    let body := sorted.foldl (fun acc p => acc ++ "- **" ++ p.1 ++ "**: " ++
      (if metric == "Gross Margin" then fmtMoney p.2 ++ "%" else "$" ++ fmtMoney p.2 ++ " USD") ++ "\n") ""
    ("**Comparison for " ++ disp ++ ":**\n" ++ body,
     some { kind := "bar", labels := sorted.map (·.1), values := sorted.map (fun p => .num p.2),
            title := disp ++ " Comparison" })

/-! ## Intent classifier (planner.py) -/

inductive Intent where
  | revenueVsBudget (month : MonthIdx)
  | opexBreakdown (month : MonthIdx)
  | cashRunwayProjection
  | ebitdaSingleMonth (month : MonthIdx)
  | metricTrend (metric : String) (months : Nat)
  | grossMarginTrend (months : Nat)
  | revenueVarianceByEntity (month : MonthIdx)
  | cashBalanceTrend (months : Nat)
  | metricRanking (metric : String) (ranking : String) (n : Nat)
  | singleMetric (metric : String) (month : MonthIdx)
  | multiMonthMetric (metric : String) (months : List MonthIdx)
  | unknown
  deriving DecidableEq

def Intent.isRanking : Intent → Bool
  | .metricRanking _ _ _ => true
  | _ => false

/-- The extrema tokens of `re.search(r'(top|bottom|highest|lowest|best|worst)\s*(\d*)', q)`. -/
def rankWordsL : List (List Char) :=
  [kwL "top", kwL "bottom", kwL "highest", kwL "lowest", kwL "best", kwL "worst"]

def matchRankAt (h : List Char) : Option (List Char) :=
  rankWordsL.find? (fun w => startsWithL w h)

/-- Group 2 of the ranking regex: optional whitespace then a (possibly
empty) digit run; `int(group(2) or 1)`. -/
def rankNum (rest : List Char) : Nat :=
  let ds := (rest.dropWhile isPySpace).takeWhile Char.isDigit
  if ds.isEmpty then 1 else digitsToNat ds

/-- Leftmost search for an extrema token (plain substring: no word
boundaries in the source pattern). -/
def rankSearch : List Char → Option (List Char × Nat)
  | [] => none
  | c :: t =>
    match matchRankAt (c :: t) with
    | some w => some (w, rankNum (List.drop w.length (c :: t)))
    | none => rankSearch t

/-- `'top' if ranking_type in ['top', 'highest', 'best'] else 'bottom'`. -/
def rankDir (w : List Char) : String :=
  if w = kwL "top" ∨ w = kwL "highest" ∨ w = kwL "best" then "top" else "bottom"

/-- planner.py lines 58-62: direction plus metric keyword co-occurrence. -/
def rankIntent (q : List Char) (w : List Char) (n : Nat) : Option Intent :=
  if containsL (kwL "revenue") q then some (.metricRanking "Revenue" (rankDir w) n)
  else if containsL (kwL "opex") q then some (.metricRanking "Opex" (rankDir w) n)
  else if containsL (kwL "ebitda") q then some (.metricRanking "EBITDA" (rankDir w) n)
  else if containsL (kwL "gross margin") q then some (.metricRanking "Gross Margin" (rankDir w) n)
  else none

/-- One attempt of `re.search(r'(last|past)\s*(\d+)\s*months', q)` at a
fixed position. -/
def numMonthsAt (h : List Char) : Option Nat :=
  let rest? : Option (List Char) :=
    if startsWithL (kwL "last") h then some (h.drop 4)
    else if startsWithL (kwL "past") h then some (h.drop 4)
    else none
  match rest? with
  | none => none
  | some rest =>
    let r := rest.dropWhile isPySpace
    let ds := r.takeWhile Char.isDigit
    if ds.isEmpty then none
    else if startsWithL (kwL "months") ((r.drop ds.length).dropWhile isPySpace) then
      some (digitsToNat ds)
    else none

def extractNumMonthsGo : List Char → Option Nat
  | [] => none
  | c :: t =>
    match numMonthsAt (c :: t) with
    | some n => some n
    | none => extractNumMonthsGo t

/-- planner.py `_extract_number_of_months` (default 6). -/
def extractNumMonths (q : List Char) (dflt : Nat) : Nat := (extractNumMonthsGo q).getD dflt

/-! ### Month-name scanning (`_extract_months`)

Regex `\b(jan(?:uary)?|...)\b(?:\s+(\d{4}))?` over the lowercased query:
word boundary before the name, three-letter stem, greedy optional long
suffix, word boundary after, then an optional year = whitespace run followed
by exactly four digits; `finditer` resumes after each match. -/

structure MPat where
  stem : List Char
  longTail : List Char
  mnum : Nat

def mPats : List MPat :=
  [⟨kwL "jan", kwL "uary", 1⟩, ⟨kwL "feb", kwL "ruary", 2⟩, ⟨kwL "mar", kwL "ch", 3⟩,
   ⟨kwL "apr", kwL "il", 4⟩, ⟨kwL "may", [], 5⟩, ⟨kwL "jun", kwL "e", 6⟩,
   ⟨kwL "jul", kwL "y", 7⟩, ⟨kwL "aug", kwL "ust", 8⟩, ⟨kwL "sep", kwL "tember", 9⟩,
   ⟨kwL "oct", kwL "ober", 10⟩, ⟨kwL "nov", kwL "ember", 11⟩, ⟨kwL "dec", kwL "ember", 12⟩]

/-- `\b` against the remaining characters. -/
def bAfter : List Char → Bool
  | [] => true
  | c :: _ => !isWordChar c

/-- Match one month name at the head of `h`; returns the month number and
the remaining characters after the consumed name. -/
def matchMonthAt (h : List Char) : Option (Nat × List Char) :=
  (mPats.filterMap (fun p =>
    if startsWithL p.stem h then
      let h3 := h.drop 3
      if !p.longTail.isEmpty && startsWithL p.longTail h3 && bAfter (h3.drop p.longTail.length) then
        some (p.mnum, h3.drop p.longTail.length)
      else if bAfter h3 then some (p.mnum, h3)
      else none
    else none)).head?

/-- The optional `(?:\s+(\d{4}))?` group: at least one whitespace character
then exactly four digits (further digits stay in the stream). -/
def yearAfter (h : List Char) : Option (Nat × List Char) :=
  let ws := h.takeWhile isPySpace
  if ws.isEmpty then none
  else
    let r := h.drop ws.length
    let ds := r.takeWhile Char.isDigit
    if 4 ≤ ds.length then some (digitsToNat (ds.take 4), r.drop 4) else none

/-- Fuel-bounded scan (every step consumes at least one character, so
`length + 1` fuel is never exhausted); `prevW` records whether the previous
character was a word character (for the leading `\b`). -/
def scanAux : Nat → Bool → List Char → List (Nat × Option Nat)
  | 0, _, _ => []
  | _, _, [] => []
  | fuel + 1, prevW, c :: t =>
    if prevW then scanAux fuel (isWordChar c) t
    else
      match matchMonthAt (c :: t) with
      | some (mn, rest) =>
        match yearAfter rest with
        | some (y, rest2) => (mn, some y) :: scanAux fuel true rest2
        | none => (mn, none) :: scanAux fuel true rest
      | none => scanAux fuel (isWordChar c) t

/-- All month-name tokens of the query with their optional explicit years. -/
def scanMonths (q : List Char) : List (Nat × Option Nat) := scanAux (q.length + 1) false q

/-- Years (as `year`) of actuals rows whose calendar month is `mn`. -/
def yearsFor (df : DataFrames) (mn : Nat) : List Nat :=
  df.actuals.filterMap (fun t => if t.month % 12 + 1 == mn then some (t.month / 12) else none)

/-- `relevant_dates['month'].dt.year.max()` — `none` when the calendar month
never occurs in actuals. -/
def latestYearFor (df : DataFrames) (mn : Nat) : Option Nat := maxNat? (yearsFor df mn)

/-- Year default of planner.py lines 120-126: latest matching year in
actuals, else the current year (`today / 12`). -/
def resolveYear (df : DataFrames) (today : MonthIdx) (mn : Nat) : Nat :=
  (latestYearFor df mn).getD (today / 12)

/-- One `datetime(year, month_num, 1)` construction (planner.py line 128).
Python `datetime` accepts years 1-9999 only, so a resolved year of 0 (an
explicit "0000" token; data and clock years are positive in any real run)
raises `ValueError: year 0 is out of range` out of `_extract_months`. -/
def resolveDateE (df : DataFrames) (today : MonthIdx) : Nat × Option Nat → Except PdErr MonthIdx
  | (mn, some y) =>
    if y = 0 then .error (.valueError "year 0 is out of range")
    else .ok (y * 12 + (mn - 1))
  | (mn, none) =>
    if resolveYear df today mn = 0 then .error (.valueError "year 0 is out of range")
    else .ok (resolveYear df today mn * 12 + (mn - 1))

/-- The match loop of `_extract_months`: tokens in query order; the first
failing `datetime` construction propagates its ValueError. -/
def resolveDates (df : DataFrames) (today : MonthIdx) :
    List (Nat × Option Nat) → Except PdErr (List MonthIdx)
  | [] => .ok []
  | p :: t =>
    match resolveDateE df today p with
    | .error e => .error e
    | .ok d =>
      match resolveDates df today t with
      | .error e => .error e
      | .ok r => .ok (d :: r)

/-- planner.py `_extract_months`: scan, resolve years (fallible: see
`resolveDateE`), deduplicate, sort ascending. -/
def extractMonths (q : List Char) (df : DataFrames) (today : MonthIdx) :
    Except PdErr (List MonthIdx) :=
  match resolveDates df today (scanMonths q) with
  | .error e => .error e
  | .ok ds => .ok (List.insertionSort (· ≤ ·) ds.dedup)

/-! ### Classification (planner.py `get_intent`) -/

/-- planner.py lines 89-93 (general questions / unknown). -/
def classifyRest (q : List Char) : Intent :=
  if containsL (kwL "cash runway") q || containsL (kwL "runway") q then .cashRunwayProjection
  else .unknown

/-- planner.py lines 73-87 (specific month(s)). -/
def classifyMonths (q : List Char) (months : List MonthIdx) : Intent :=
  if 1 < months.length then
    if containsL (kwL "revenue") q then .multiMonthMetric "Revenue" months
    else if containsL (kwL "opex") q then .multiMonthMetric "Opex" months
    else if containsL (kwL "gross margin") q then .multiMonthMetric "Gross Margin" months
    else classifyRest q
  else
    match months with
    | [m] =>
      if containsL (kwL "revenue") q && containsL (kwL "budget") q then .revenueVsBudget m
      else if containsL (kwL "opex") q && (containsL (kwL "break down") q || containsL (kwL "breakdown") q) then
        .opexBreakdown m
      else if containsL (kwL "ebitda") q then .ebitdaSingleMonth m
      else if containsL (kwL "revenue") q && containsL (kwL "entity") q then .revenueVarianceByEntity m
      else if containsL (kwL "revenue") q then .singleMetric "Revenue" m
      else if containsL (kwL "opex") q then .singleMetric "Opex" m
      else if containsL (kwL "gross margin") q then .singleMetric "Gross Margin" m
      else classifyRest q
    | _ => classifyRest q

/-- planner.py lines 64-71 (trend analysis). -/
def classifyTrend (q : List Char) (months : List MonthIdx) : Intent :=
  if containsL (kwL "trend") q || containsL (kwL "history") q || containsL (kwL "historical") q then
    let n := extractNumMonths q 6
    if containsL (kwL "revenue") q then .metricTrend "Revenue" n
    else if containsL (kwL "opex") q then .metricTrend "Opex" n
    else if containsL (kwL "ebitda") q then .metricTrend "EBITDA" n
    else if containsL (kwL "gross margin") q then .grossMarginTrend n
    else if containsL (kwL "cash balance") q then .cashBalanceTrend n
    else classifyMonths q months
  else classifyMonths q months

/-- planner.py `get_intent` on the lowercased query with the months already
extracted: ranking first, then trend, then month counts, then fallback. -/
def classify (q : List Char) (months : List MonthIdx) : Intent :=
  match rankSearch q with
  | some (w, n) =>
    match rankIntent q w n with
    | some i => i
    | none => classifyTrend q months
  | none => classifyTrend q months

/-- planner.py `get_intent` (fallible: `_extract_months` runs first, at
line 51, and can raise ValueError before any intent check). -/
def getIntent (query : String) (df : DataFrames) (today : MonthIdx) : Except PdErr Intent :=
  match extractMonths (lowerL query.toList) df today with
  | .error e => .error e
  | .ok months => .ok (classify (lowerL query.toList) months)

/-! ## Dispatcher (planner.py `run_agent`) -/

def unknownMsg : String :=
  "Sorry, I\x27m not equipped to answer that question. Please try asking about revenue, opex, cash, or margins."

def notEnoughMsg : String := "Not enough data to calculate cash runway or projection."

/-- planner.py `run_agent` with the process clock fixed to one instant for
the whole call (see `runAgentClock` for the per-read model). -/
def runAgent (query : String) (df : DataFrames) (today : MonthIdx) :
    Except PdErr (String × Option Chart) :=
  match getIntent query df today with
  | .error e => .error e
  | .ok intent =>
  match intent with
  | .revenueVsBudget m => .ok (getRevenueVsBudget m df)
  | .opexBreakdown m => .ok (getOpexBreakdown m df)
  | .cashRunwayProjection =>
    match calculateNetBurn df today with
    | none => .ok (notEnoughMsg, none)
    | some (b, c, m) => if 0 < b then .ok (getCashRunway b c m df) else .ok (getCashProjection (-b) c m df)
  | .ebitdaSingleMonth m => .ok (getEbitda m df)
  | .metricTrend metric n => getMetricTrend metric n df today
  | .grossMarginTrend n => getGrossMarginTrend n df today
  | .revenueVarianceByEntity m => .ok (getRevenueVarianceByEntity m df)
  | .cashBalanceTrend n => .ok (getCashBalanceTrend n df today)
  | .metricRanking metric rt n => getMetricRanking metric rt n df today
  | .singleMetric metric m => .ok (getSingleMetric metric m df)
  | .multiMonthMetric metric ms => .ok (getMultiMonthMetric metric ms df)
  | .unknown => .ok (unknownMsg, none)

/-! ## Explicit clock-read model

The source reads the ambient clock in several places during one
`run_agent` call: `datetime.now()` in `_extract_months` (once per yearless
month token whose calendar month is absent from actuals) and
`pd.Timestamp.now()` once at the top of each historical-window tool.
`runAgentClock` threads a read stream `clock : Nat → MonthIdx` (the k-th
read returns `clock k`) and counts the reads. -/

structure ClockCount where
  extractReads : Nat
  toolReads : Nat
  deriving DecidableEq

/-- Year resolution with explicit clock reads, in query order; a year-0
resolution raises (after any clock reads already made, since the
`datetime.now()` read precedes the failing `datetime(...)` call). -/
def resolveDatesCl (df : DataFrames) (clock : Nat → MonthIdx) :
    Nat → List (Nat × Option Nat) → Except PdErr (List MonthIdx) × Nat
  | k, [] => (.ok [], k)
  | k, (mn, some y) :: t =>
    if y = 0 then (.error (.valueError "year 0 is out of range"), k)
    else
      match resolveDatesCl df clock k t with
      | (.ok r, k') => (.ok ((y * 12 + (mn - 1)) :: r), k')
      | (.error e, k') => (.error e, k')
  | k, (mn, none) :: t =>
    match latestYearFor df mn with
    | some y =>
      if y = 0 then (.error (.valueError "year 0 is out of range"), k)
      else
        match resolveDatesCl df clock k t with
        | (.ok r, k') => (.ok ((y * 12 + (mn - 1)) :: r), k')
        | (.error e, k') => (.error e, k')
    | none =>
      if clock k / 12 = 0 then (.error (.valueError "year 0 is out of range"), k + 1)
      else
        match resolveDatesCl df clock (k + 1) t with
        | (.ok r, k') => (.ok ((clock k / 12 * 12 + (mn - 1)) :: r), k')
        | (.error e, k') => (.error e, k')

def extractMonthsClock (q : List Char) (df : DataFrames) (clock : Nat → MonthIdx) :
    Except PdErr (List MonthIdx) × Nat :=
  match resolveDatesCl df clock 0 (scanMonths q) with
  | (.ok ds, k) => (.ok (List.insertionSort (· ≤ ·) ds.dedup), k)
  | (.error e, k) => (.error e, k)

/-- `run_agent` with every ambient clock read made explicit. -/
def runAgentClock (query : String) (df : DataFrames) (clock : Nat → MonthIdx) :
    Except PdErr (String × Option Chart) × ClockCount :=
  let q := lowerL query.toList
  let mk := extractMonthsClock q df clock
  let k := mk.2
  match mk.1 with
  | .error e => (.error e, ⟨k, 0⟩)
  | .ok months =>
  match classify q months with
  | .revenueVsBudget m => (.ok (getRevenueVsBudget m df), ⟨k, 0⟩)
  | .opexBreakdown m => (.ok (getOpexBreakdown m df), ⟨k, 0⟩)
  | .cashRunwayProjection =>
    (match calculateNetBurn df (clock k) with
     | none => .ok (notEnoughMsg, none)
     | some (b, c, m) =>
       if 0 < b then .ok (getCashRunway b c m df) else .ok (getCashProjection (-b) c m df),
     ⟨k, 1⟩)
  | .ebitdaSingleMonth m => (.ok (getEbitda m df), ⟨k, 0⟩)
  | .metricTrend metric n => (getMetricTrend metric n df (clock k), ⟨k, 1⟩)
  | .grossMarginTrend n => (getGrossMarginTrend n df (clock k), ⟨k, 1⟩)
  | .revenueVarianceByEntity m => (.ok (getRevenueVarianceByEntity m df), ⟨k, 0⟩)
  | .cashBalanceTrend n => (.ok (getCashBalanceTrend n df (clock k)), ⟨k, 1⟩)
  | .metricRanking metric rt n => (getMetricRanking metric rt n df (clock k), ⟨k, 1⟩)
  | .singleMetric metric m => (.ok (getSingleMetric metric m df), ⟨k, 0⟩)
  | .multiMonthMetric metric ms => (.ok (getMultiMonthMetric metric ms df), ⟨k, 0⟩)
  | .unknown => (.ok (unknownMsg, none), ⟨k, 0⟩)

/-! ## Concrete fixtures used by witnesses and counterexamples

Month indices: June 2025 = 2025 * 12 + 5 = 24305. -/

/-- Chart values of a successful answer (empty otherwise). -/
def chartVals : Except PdErr (String × Option Chart) → List PVal
  | .ok (_, some ch) => ch.values
  | _ => []

/-- Jun 2025: Revenue 200 / COGS 100; Jul 2025: COGS 30 only (zero revenue). -/
def dfZeroRev : DataFrames :=
  { actuals := [⟨24305, "A", "Revenue", "USD", 200⟩, ⟨24305, "A", "COGS", "USD", 100⟩,
                ⟨24306, "A", "COGS", "USD", 30⟩],
    budget := [], cash := [], fx := [] }

/-- A single Opex row: no "Revenue" category anywhere. -/
def dfNoRevCat : DataFrames :=
  { actuals := [⟨24305, "A", "Opex: Ops", "USD", 5⟩], budget := [], cash := [], fx := [] }

/-- Three consecutive monthly totals of -2 (so avg burn = 2) and a negative
latest cash balance of -5. -/
def dfNegCash : DataFrames :=
  { actuals := [⟨24303, "A", "Opex: Ops", "USD", -2⟩, ⟨24304, "A", "Opex: Ops", "USD", -2⟩,
                ⟨24305, "A", "Opex: Ops", "USD", -2⟩],
    budget := [], cash := [⟨24305, -5⟩], fx := [] }

/-- Same burn, positive cash 10 (runway 5 months). -/
def dfPosCash : DataFrames :=
  { actuals := [⟨24303, "A", "Opex: Ops", "USD", -2⟩, ⟨24304, "A", "Opex: Ops", "USD", -2⟩,
                ⟨24305, "A", "Opex: Ops", "USD", -2⟩],
    budget := [], cash := [⟨24305, 10⟩], fx := [] }

/-- Empty bundle. -/
def dfEmpty : DataFrames := { actuals := [], budget := [], cash := [], fx := [] }

/-- One June 2025 Revenue row (December never occurs). -/
def dfJune : DataFrames :=
  { actuals := [⟨24305, "A", "Revenue", "USD", 100⟩], budget := [], cash := [], fx := [] }

def clockA : Nat → MonthIdx := fun k => if k = 0 then 24310 else 24305

def clockB : Nat → MonthIdx := fun k => if k = 0 then 24310 else 24300

/-- A converted frame with a single COGS row (zero revenue). -/
def rowsCOGS : List TxUSD := [⟨24306, "A", "COGS", "USD", 30, 1, 30⟩]

def txW : Tx := ⟨24305, "A", "Revenue", "EUR", 7⟩

def fxW : List FxRate := [⟨24305, "EUR", 1⟩]

/-- Chart values of a (summary, chart) pair (empty when no chart). -/
def pairVals : String × Option Chart → List PVal
  | (_, some ch) => ch.values
  | (_, none) => []

/-! ## Reduction setup

Batteries marks the `Rat` arithmetic operations `@[irreducible]` (they are
ordinary computable definitions; the attribute only hides them from
definitional unfolding).  The concrete evaluations below need them to
reduce, so restore the default transparency. -/

set_option allowUnsafeReducibility true in
attribute [semireducible] Rat.add Rat.sub Rat.mul Rat.inv Rat.div Rat.neg

deriving instance DecidableEq for Except

set_option maxRecDepth 8000

/-! ## Helper lemmas -/

theorem find?_isSome_of_mem {α : Type} {p : α → Bool} {l : List α} {x : α}
    (hx : x ∈ l) (hp : p x = true) : (l.find? p).isSome = true := by
  induction l with
  | nil => cases hx
  | cons a t ih =>
    cases hb : p a with
    | true => simp [List.find?, hb]
    | false =>
      rcases List.mem_cons.1 hx with rfl | hmem
      · rw [hp] at hb; cases hb
      · simpa [List.find?, hb] using ih hmem

/-- A query that contains an extrema token as a substring makes the ranking
search of planner.py line 54 succeed. -/
theorem rankSearch_isSome {w : List Char} (hw : w ∈ rankWordsL) :
    ∀ {q : List Char}, containsL w q = true → (rankSearch q).isSome = true := by
  intro q
  induction q with
  | nil =>
    intro h
    have hwe : w = [] := by
      rw [containsL] at h
      exact List.isEmpty_iff.1 h
    subst hwe
    revert hw; decide
  | cons c t ih =>
    intro h
    cases hs : startsWithL w (c :: t) with
    | true =>
      have hMS : (matchRankAt (c :: t)).isSome = true := find?_isSome_of_mem hw hs
      rcases hM : matchRankAt (c :: t) with _ | v
      · rw [hM] at hMS; cases hMS
      · simp [rankSearch, hM]
    | false =>
      have hc : containsL w t = true := by
        rw [containsL] at h
        simpa [hs] using h
      rcases hM : matchRankAt (c :: t) with _ | v <;> simp [rankSearch, hM, ih hc]

/-- When a metric keyword co-occurs, the ranking branch produces a
MetricRanking intent. -/
theorem rankIntent_isRanking {q w : List Char} {n : Nat}
    (hm : containsL (kwL "revenue") q = true ∨ containsL (kwL "opex") q = true ∨
          containsL (kwL "ebitda") q = true ∨ containsL (kwL "gross margin") q = true) :
    ∃ i, rankIntent q w n = some i ∧ i.isRanking = true := by
  unfold rankIntent
  split_ifs with h1 h2 h3 h4
  · exact ⟨_, rfl, rfl⟩
  · exact ⟨_, rfl, rfl⟩
  · exact ⟨_, rfl, rfl⟩
  · exact ⟨_, rfl, rfl⟩
  · rcases hm with h | h | h | h <;> simp_all

/-- C7: FX normalization is the identity on amounts under rate 1.0,
including the silent 1.0 default for a (month, currency) pair missing from
the fx table — `amount_usd == amount`. -/
theorem C7_fx_identity (txs : List Tx) (fx : List FxRate) (t : Tx)
    (h : fxLookup fx t.month t.currency = none ∨ fxLookup fx t.month t.currency = some 1) :
    (convertRow fx t).usd = t.amount ∧ convertUSD txs fx = txs.map (convertRow fx) := by
  refine ⟨?_, rfl⟩
  unfold convertRow
  rcases h with h | h <;> simp [h]

theorem C7_witness :
    fxLookup [] 24305 "EUR" = none ∧ (convertRow [] txW).usd = txW.amount ∧
    fxLookup fxW 24305 "EUR" = some 1 ∧ (convertRow fxW txW).usd = txW.amount :=
  ⟨rfl, (C7_fx_identity [] [] txW (Or.inl rfl)).1, rfl,
   (C7_fx_identity [] fxW txW (Or.inr rfl)).1⟩

/-- C8: month-name matching uses word boundaries, so the "mar" inside
"margin" is never parsed as March: a gross-margin query with no genuine
month token extracts no months (for every dataset and clock), while a
genuine "march" token still matches. -/
theorem C8_word_boundary (df : DataFrames) (today : MonthIdx) :
    extractMonths (lowerL (String.toList "show me the gross margin")) df today = .ok [] ∧
    scanMonths (kwL "show me the gross margin") = [] ∧
    scanMonths (kwL "gross margin in march") = [(3, none)] := by
  refine ⟨rfl, by decide, by decide⟩

theorem C8_witness :
    extractMonths (lowerL (String.toList "show me the gross margin")) dfJune 24310 = .ok [] :=
  (C8_word_boundary dfJune 24310).1

/-- C3 (amended): whenever month extraction returns — its only failure is
a month token whose resolved year is 0, where `datetime` raises ValueError
before any intent check — ranking detection runs first and pre-empts trend
and month detection: an extrema token co-occurring with a metric keyword
classifies as MetricRanking; "top 3 revenue months" yields MetricRanking
(N = 3, never MultiMonthMetric) and "top revenue months" defaults N to 1. -/
theorem C3_ranking_preempts (query : String) (df : DataFrames) (today : MonthIdx)
    (tok : List Char) (months : List MonthIdx) (htok : tok ∈ rankWordsL)
    (hc : containsL tok (lowerL query.toList) = true)
    (hm : containsL (kwL "revenue") (lowerL query.toList) = true ∨
          containsL (kwL "opex") (lowerL query.toList) = true ∨
          containsL (kwL "ebitda") (lowerL query.toList) = true ∨
          containsL (kwL "gross margin") (lowerL query.toList) = true)
    (hok : extractMonths (lowerL query.toList) df today = .ok months) :
    (∃ i, getIntent query df today = .ok i ∧ i.isRanking = true) ∧
    getIntent "top 3 revenue months" df today = .ok (.metricRanking "Revenue" "top" 3) ∧
    getIntent "top revenue months" df today = .ok (.metricRanking "Revenue" "top" 1) := by
  refine ⟨?_, rfl, rfl⟩
  have hS := rankSearch_isSome htok hc
  rcases hq : rankSearch (lowerL query.toList) with _ | ⟨w, n⟩
  · rw [hq] at hS; cases hS
  · obtain ⟨i, hi, hir⟩ :=
      rankIntent_isRanking (q := lowerL query.toList) (w := w) (n := n) hm
    refine ⟨i, ?_, hir⟩
    unfold getIntent
    rw [hok]
    dsimp only
    unfold classify
    rw [hq]
    dsimp only
    rw [hi]

/-- C3 counterexample: "top revenue in june 0000" contains the extrema
token "top" and the metric keyword "revenue", yet `get_intent` raises
ValueError (year 0) inside `_extract_months` — which runs before the
ranking check (planner.py line 51 vs 54) — instead of returning
MetricRanking. -/
theorem C3_counterexample :
    containsL (kwL "top") (lowerL (String.toList "top revenue in june 0000")) = true ∧
    containsL (kwL "revenue") (lowerL (String.toList "top revenue in june 0000")) = true ∧
    scanMonths (lowerL (String.toList "top revenue in june 0000")) = [(6, some 0)] ∧
    getIntent "top revenue in june 0000" dfJune 24310 =
      .error (.valueError "year 0 is out of range") := by
  refine ⟨by decide, by decide, by decide, rfl⟩

theorem C3_witness :
    (∃ i, getIntent "show top 3 revenue months" dfJune 24310 = .ok i ∧ i.isRanking = true) ∧
    getIntent "top 3 revenue months" dfJune 24310 = .ok (.metricRanking "Revenue" "top" 3) ∧
    getIntent "top revenue months" dfJune 24310 = .ok (.metricRanking "Revenue" "top" 1) :=
  C3_ranking_preempts "show top 3 revenue months" dfJune 24310 (kwL "top") []
    (by decide) (by decide) (Or.inl (by decide)) (by decide)

/-- C10: `get_single_metric` never returns a chart: with data it is a
one-line summary with a null chart, without data a "No data found" message
with a null chart, and `run_agent` passes its result through unchanged. -/
theorem C10_single_metric_no_chart (metric : String) (m : MonthIdx) (df : DataFrames)
    (qy : String) (today : MonthIdx) :
    (getSingleMetric metric m df).2 = none ∧
    ((monthRows df m).isEmpty = true → getSingleMetric metric m df = (noDataMsg m, none)) ∧
    ((monthRows df m).isEmpty = false →
      getSingleMetric metric m df =
        ("**" ++ metric ++ " for " ++ monthFull m ++ ":** " ++
           fmtMoney (singleMetricValue metric (monthRows df m)).1 ++ " " ++
           (singleMetricValue metric (monthRows df m)).2, none)) ∧
    (getIntent qy df today = .ok (.singleMetric metric m) →
      runAgent qy df today = .ok (getSingleMetric metric m df)) := by
  refine ⟨?_, ?_, ?_, ?_⟩
  · unfold getSingleMetric
    cases hE : (monthRows df m).isEmpty <;> simp [hE]
  · intro hE; unfold getSingleMetric; simp [hE]
  · intro hE; unfold getSingleMetric; simp [hE]
  · intro hI; unfold runAgent; rw [hI]

/-- C4: with fewer than 3 monthly totals in the trailing 3-month window of
actuals at or before the clock, the burn computation fails with the
InsufficientData value and the runway intent answers with the plain "not
enough data" text and a null chart (no exception). -/
theorem C4_insufficient_burn (qy : String) (df : DataFrames) (today : MonthIdx)
    (hi : getIntent qy df today = .ok .cashRunwayProjection)
    (hw : (burnWindow df today).length < 3) :
    calculateNetBurn df today = none ∧
    runAgent qy df today = .ok (notEnoughMsg, none) := by
  have hb : calculateNetBurn df today = none := by
    unfold calculateNetBurn
    rcases hL : (df.cash.filter fun r => decide (r.month ≤ today)).getLast? with _ | lastRow
    · rw [hL]
    · rw [hL]
      simp [hw]
  refine ⟨hb, ?_⟩
  unfold runAgent
  rw [hi]
  dsimp only
  rw [hb]

theorem C4_witness :
    calculateNetBurn dfEmpty 0 = none ∧
    runAgent "What is our cash runway right now?" dfEmpty 0 = .ok (notEnoughMsg, none) :=
  C4_insufficient_burn "What is our cash runway right now?" dfEmpty 0 rfl (by decide)

/-- C2 (amended): the enumerated error paths all return a plain-text
message with a null chart and no exception: an unrecognized query, the
runway intent with insufficient burn data, and a requested month with no
data in `get_single_metric`.  (run_agent as a whole is not exception-free:
see the counterexample.) -/
theorem C2_error_paths (df : DataFrames) (today : MonthIdx) :
    runAgent "What is the capital of France?" df today = .ok (unknownMsg, none) ∧
    ((burnWindow df today).length < 3 →
      runAgent "What is our cash runway right now?" df today = .ok (notEnoughMsg, none)) ∧
    (∀ metric m, (monthRows df m).isEmpty = true →
      getSingleMetric metric m df = (noDataMsg m, none)) := by
  refine ⟨rfl, ?_, ?_⟩
  · intro hw
    have hb : calculateNetBurn df today = none := by
      unfold calculateNetBurn
      rcases hL : (df.cash.filter fun r => decide (r.month ≤ today)).getLast? with _ | lastRow
      · rw [hL]
      · rw [hL]
        simp [hw]
    have hi : getIntent "What is our cash runway right now?" df today = .ok .cashRunwayProjection := rfl
    unfold runAgent
    rw [hi]
    dsimp only
    rw [hb]
  · intro metric m hE
    unfold getSingleMetric
    simp [hE]

/-- C2 counterexample: a schema-conforming dataset whose actuals have no
"Revenue" category makes a revenue-trend query raise a pandas KeyError
inside run_agent, so run_agent does not return normally for every query and
dataset bundle. -/
theorem C2_counterexample :
    runAgent "show revenue trend" dfNoRevCat 24310 = .error (.keyError "Revenue") := rfl

theorem C2_witness :
    runAgent "What is the capital of France?" dfEmpty 0 = .ok (unknownMsg, none) ∧
    runAgent "What is our cash runway right now?" dfEmpty 0 = .ok (notEnoughMsg, none) ∧
    getSingleMetric "Revenue" 24305 dfEmpty = (noDataMsg 24305, none) :=
  ⟨(C2_error_paths dfEmpty 0).1, (C2_error_paths dfEmpty 0).2.1 (by decide),
   (C2_error_paths dfEmpty 0).2.2 "Revenue" 24305 (by decide)⟩

theorem C10_witness :
    (getSingleMetric "Opex" 24305 dfJune).2 = none ∧
    getSingleMetric "Opex" 24307 dfJune = (noDataMsg 24307, none) ∧
    runAgent "What was the opex in July 2025?" dfJune 24310 =
      .ok (getSingleMetric "Opex" 24306 dfJune) :=
  ⟨(C10_single_metric_no_chart "Opex" 24305 dfJune "" 0).1,
   (C10_single_metric_no_chart "Opex" 24307 dfJune "" 0).2.1 (by decide),
   (C10_single_metric_no_chart "Opex" 24306 dfJune "What was the opex in July 2025?" 24310).2.2.2 rfl⟩

/-- C1 (amended): zero revenue is guarded only in `get_single_metric`
(value 0) and in `get_multi_month_metric` (month skipped, no value); the
shared trend/ranking division `((Revenue - COGS) / Revenue) * 100` is
unguarded and yields a non-finite IEEE value (never `0`, never an
exception) at a zero-revenue month. -/
theorem C1_zero_revenue_guards (rows : List TxUSD) (c q' : ℚ)
    (h : sumCat rows "Revenue" = 0) :
    (singleMetricValue "Gross Margin" rows).1 = 0 ∧
    multiValue "Gross Margin" rows = none ∧
    gmPercent 0 c ≠ PVal.num q' := by
  refine ⟨?_, ?_, ?_⟩
  · unfold singleMetricValue
    simp [h]
  · unfold multiValue
    simp [h]
  · unfold gmPercent pdiv100
    split_ifs <;> simp_all

/-- C1 counterexample: in `get_gross_margin_trend` the July 2025 month of
`dfZeroRev` has revenue 0, and its computed gross margin is `-inf`, not 0:
the division is not guarded in every gross-margin operation. -/
theorem C1_counterexample :
    sumCat (monthRows dfZeroRev 24306) "Revenue" = 0 ∧
    chartVals (runAgent "show gross margin trend" dfZeroRev 24310) =
      [PVal.num 50, PVal.negInf] ∧
    PVal.negInf ≠ PVal.num 0 := by
  refine ⟨rfl, by decide, by decide⟩

theorem C1_witness :
    sumCat rowsCOGS "Revenue" = 0 ∧
    (singleMetricValue "Gross Margin" rowsCOGS).1 = 0 ∧
    multiValue "Gross Margin" rowsCOGS = none ∧
    gmPercent 0 30 ≠ PVal.num 0 :=
  ⟨rfl, (C1_zero_revenue_guards rowsCOGS 30 0 rfl).1,
   (C1_zero_revenue_guards rowsCOGS 30 0 rfl).2.1,
   (C1_zero_revenue_guards rowsCOGS 30 0 rfl).2.2⟩

/-- C5 (amended): for the runway intent with a computed burn triple: if the
average burn is positive, `runway = cash / burn`, the summary reports
depletion at the cash month plus the int-truncated runway — equal to
`floor(runway)` whenever the cash balance is nonnegative — and the
projection holds `floor(runway) + 2` monthly points decrementing by the
burn; if the burn is nonpositive, a 13-point (12 months forward) projection
incrementing by `-burn` with a cash-flow-positive summary and no runway
figure. -/
theorem C5_runway_projection (qy : String) (df : DataFrames) (today : MonthIdx)
    (b c : ℚ) (m : MonthIdx)
    (hi : getIntent qy df today = .ok .cashRunwayProjection)
    (hb : calculateNetBurn df today = some (b, c, m)) :
    (0 < b → runAgent qy df today = .ok (getCashRunway b c m df) ∧
      (0 ≤ c →
        (getCashRunway b c m df).1 = runwaySummary b c (c / b) ((m : ℤ) + ⌊c / b⌋) ∧
        pairVals (getCashRunway b c m df) =
          (List.range ((⌊c / b⌋).toNat + 2)).map (fun (i : ℕ) => PVal.num (c - b * (i : ℚ))))) ∧
    (b ≤ 0 → runAgent qy df today = .ok (getCashProjection (-b) c m df) ∧
      pairVals (getCashProjection (-b) c m df) =
        (List.range 13).map (fun (i : ℕ) => PVal.num (c + -b * (i : ℚ))) ∧
      (getCashProjection (-b) c m df).1 =
        "**Cash Flow Positive Analysis:**\n- **Current Cash Balance:** $" ++ fmtMoney c ++
        " USD\n- **Avg. Monthly Net Gain (3-mo):** $" ++ fmtMoney (-b) ++
        " USD\n- Your business is currently cash flow positive.") := by
  constructor
  · intro hpos
    constructor
    · unfold runAgent
      rw [hi]
      dsimp only
      rw [hb]
      dsimp only
      rw [if_pos hpos]
    · intro hc
      have hr0 : (0 : ℚ) ≤ c / b := div_nonneg hc hpos.le
      have htr : pyTrunc (c / b) = ⌊c / b⌋ := if_pos hr0
      have hf0 : (0 : ℤ) ≤ ⌊c / b⌋ := Int.floor_nonneg.2 hr0
      have hk : (pyTrunc (c / b) + 2).toNat = (⌊c / b⌋).toNat + 2 := by
        rw [htr]; omega
      constructor
      · simp only [getCashRunway]
        rw [htr]
      · simp only [getCashRunway, pairVals]
        rw [hk]
  · intro hneg
    refine ⟨?_, rfl, rfl⟩
    unfold runAgent
    rw [hi]
    dsimp only
    rw [hb]
    dsimp only
    rw [if_neg (not_lt.2 hneg)]

/-- C5 counterexample: with average burn 2 and latest cash -5 (runway
-2.5), the code reports depletion at `cash month + int(-2.5) = -2` months
(April 2025 for cash month June 2025), not `cash month + floor(-2.5) = -3`
(March 2025), and the projection is empty rather than extending to
depletion plus the 2-month margin: `floor(runwayMonths)` is not what the
code computes. -/
theorem C5_counterexample :
    calculateNetBurn dfNegCash 24310 = some (2, -5, 24305) ∧
    runAgent "What is our cash runway right now?" dfNegCash 24310 =
      .ok (getCashRunway 2 (-5) 24305 dfNegCash) ∧
    (getCashRunway 2 (-5) 24305 dfNegCash).1 =
      runwaySummary 2 (-5) ((-5 : ℚ) / 2) 24303 ∧
    (24305 : ℤ) + ⌊(-5 : ℚ) / 2⌋ = 24302 ∧
    runwaySummary 2 (-5) ((-5 : ℚ) / 2) 24303 ≠ runwaySummary 2 (-5) ((-5 : ℚ) / 2) 24302 ∧
    pairVals (getCashRunway 2 (-5) 24305 dfNegCash) = [] := by
  refine ⟨rfl, rfl, rfl, by decide, by decide, rfl⟩

theorem C5_witness :
    runAgent "What is our cash runway right now?" dfPosCash 24310 =
      .ok (getCashRunway 2 10 24305 dfPosCash) ∧
    (getCashRunway 2 10 24305 dfPosCash).1 =
      runwaySummary 2 10 ((10 : ℚ) / 2) ((24305 : ℤ) + ⌊(10 : ℚ) / 2⌋) ∧
    pairVals (getCashRunway 2 10 24305 dfPosCash) =
      (List.range ((⌊(10 : ℚ) / 2⌋).toNat + 2)).map (fun (i : ℕ) => PVal.num (10 - 2 * (i : ℚ))) :=
  ⟨((C5_runway_projection "What is our cash runway right now?" dfPosCash 24310 2 10 24305
      rfl rfl).1 (by norm_num)).1,
   (((C5_runway_projection "What is our cash runway right now?" dfPosCash 24310 2 10 24305
      rfl rfl).1 (by norm_num)).2 (by norm_num)).1,
   (((C5_runway_projection "What is our cash runway right now?" dfPosCash 24310 2 10 24305
      rfl rfl).1 (by norm_num)).2 (by norm_num)).2⟩

/-- C9 (amended): the clock is not captured once per answer call: the
classifier reads it once per yearless month token absent from actuals and
the dispatched tool reads it again; but every dispatched tool reads the
clock at most once, so all trailing-window calculations within one tool
use a single instant. -/
theorem C9_tool_single_clock_read (qy : String) (df : DataFrames) (clock : Nat → MonthIdx) :
    ((runAgentClock qy df clock).2).toolReads ≤ 1 := by
  unfold runAgentClock
  dsimp only
  split
  · simp
  · split <;> simp

/-- C9 counterexample: for "show revenue trend since december" over a
dataset without December actuals, the clock is read twice (once while
extracting months, once in the trend tool), and two clock streams agreeing
on the first read but differing on the second produce different answers —
so "today" is not captured exactly once at query entry. -/
theorem C9_counterexample :
    clockA 0 = clockB 0 ∧
    (runAgentClock "show revenue trend since december" dfJune clockA).2 =
      ⟨1, 1⟩ ∧
    runAgentClock "show revenue trend since december" dfJune clockA ≠
      runAgentClock "show revenue trend since december" dfJune clockB := by
  refine ⟨rfl, rfl, by decide⟩

theorem C9_witness :
    ((runAgentClock "show revenue trend since december" dfJune clockA).2).toolReads ≤ 1 :=
  C9_tool_single_clock_read "show revenue trend since december" dfJune clockA

end CFO
